import Mathlib

/-!
Shallow embedding of `src/seo_optimizer.py` (class `SEOOptimizer`):
the SEO analyzer (`analyze_seo`), scorer (`_calculate_seo_score`),
suggestion generator (`_generate_suggestions`), readability estimation
(`_calculate_readability`, `_count_syllables`), heading analysis
(`_analyze_headings`) and average sentence length
(`_calculate_avg_sentence_length`).

Modelling conventions:
* Python strings are Lean `String`s; internally we work on `List Char`.
* Python floats are modelled as exact rationals (`ℚ`); the arithmetic in
  this module is a handful of divisions and comparisons, for which the
  rational model is the intended real-number semantics.
* `str.lower()` is modelled by `Char.toLower` (ASCII case folding; all
  text handled by this repository is ASCII).
* `round(x, 2)` is modelled by `round2` (round to 2 decimal places).
* Python dicts that are built by inserting one entry per target keyword
  are modelled as association lists in insertion order (CPython dicts
  preserve insertion order); duplicate keywords collapse to their first
  position, as dict insertion does (`dedupKeys`).
* The `primary_keywords` field (10 most frequent non-stop-words) is not
  modelled: no analysed property touches it, and the spec itself flags
  its tie-break order as not part of the contract.
-/

/-- ASCII whitespace, as recognised by Python's `str.split()` /
`str.strip()` (space, tab, newline, carriage return, vertical tab,
form feed). -/
def isSpace (c : Char) : Bool :=
  c = ' ' || c = '\t' || c = '\n' || c = '\r' || c = '\x0b' || c = '\x0c'

/-- Sentence-delimiting punctuation, the character class of
`re.split(r'[.!?]+', text)`. -/
def isPunct (c : Char) : Bool :=
  c = '.' || c = '!' || c = '?'

/-- The vowel set `'aeiouy'` of `_count_syllables`. -/
def isVowel (c : Char) : Bool :=
  c = 'a' || c = 'e' || c = 'i' || c = 'o' || c = 'u' || c = 'y'

/-- Helper for `splitWs`: `cur` is the current in-progress word,
reversed. -/
def splitWsAux : List Char → List Char → List (List Char)
  | [], cur => if cur = [] then [] else [cur.reverse]
  | c :: rest, cur =>
    if isSpace c then
      if cur = [] then splitWsAux rest []
      else cur.reverse :: splitWsAux rest []
    else splitWsAux rest (c :: cur)

/-- Python `str.split()` with no argument: split on runs of whitespace,
discarding empty fragments. -/
def splitWs (l : List Char) : List (List Char) := splitWsAux l []

/-- Helper for `splitPunct`: `cur` is the current fragment (reversed);
`inRun` records that the previous character was punctuation, so a
consecutive run collapses to one delimiter, matching the `+` in the
regex. -/
def splitPunctAux : List Char → List Char → Bool → List (List Char)
  | [], cur, _ => [cur.reverse]
  | c :: rest, cur, inRun =>
    if isPunct c then
      if inRun then splitPunctAux rest cur true
      else cur.reverse :: splitPunctAux rest [] true
    else splitPunctAux rest (c :: cur) false

/-- Model of `re.split(r'[.!?]+', text)`: split on runs of `.`, `!`, `?`,
keeping empty boundary fragments (`""` splits to `[""]`). -/
def splitPunct (l : List Char) : List (List Char) := splitPunctAux l [] false

/-- Python `text.split('\n')`: split on each single newline, keeping
empty fragments. -/
def splitNl : List Char → List Char → List (List Char)
  | [], cur => [cur.reverse]
  | c :: rest, cur =>
    if c = '\n' then cur.reverse :: splitNl rest []
    else splitNl rest (c :: cur)

/-- Python `str.strip()`: remove leading and trailing whitespace. -/
def stripL (l : List Char) : List Char :=
  ((l.dropWhile isSpace).reverse.dropWhile isSpace).reverse

/-- Scanning loop of `countSubstr`: at each position, a pending `skip`
of positions still covered by the previous match is consumed first;
otherwise a prefix match counts one occurrence and schedules a skip
over the rest of the matched needle. -/
def countSubstrGo (needle : List Char) : List Char → Nat → Nat
  | [], skip => if needle = [] ∧ skip = 0 then 1 else 0
  | c :: rest, skip =>
    if 0 < skip then countSubstrGo needle rest (skip - 1)
    else if needle.isPrefixOf (c :: rest) then
      1 + countSubstrGo needle rest (needle.length - 1)
    else countSubstrGo needle rest 0

/-- Python `hay.count(needle)`: number of non-overlapping occurrences of
`needle` in `hay`, scanning left to right greedily. -/
def countSubstr (hay needle : List Char) : Nat := countSubstrGo needle hay 0

/-- Python `round(x, 2)`: round to two decimal places. -/
def round2 (q : ℚ) : ℚ := (round (q * 100) : ℤ) / 100

/-- Entry of the `keyword_density` mapping: `{'count': …, 'density': …}`. -/
structure KeywordDensityEntry where
  count : Nat
  density : ℚ
deriving DecidableEq, Repr

/-- Result of `_analyze_headings`. -/
structure HeadingStructure where
  has_h1 : Bool
  h1_count : Nat
  h2_count : Nat
  h3_count : Nat
  proper_hierarchy : Bool
deriving DecidableEq, Repr

/-- Result of `_calculate_readability`. -/
structure Readability where
  flesch_score : ℚ
  sentence_count : Nat
  word_count : Nat
  syllable_count : Nat
deriving DecidableEq, Repr

/-- The analysis dictionary returned by `analyze_seo`. -/
structure SeoAnalysis where
  word_count : Nat
  keyword_density : List (String × KeywordDensityEntry)
  heading_structure : HeadingStructure
  readability : Readability
  has_meta_description : Bool
  average_sentence_length : ℚ
deriving DecidableEq, Repr

/-- Helper for `dedupKeys`: drop keys already in `seen`. -/
def dedupKeysAux : List String → List String → List String
  | [], _ => []
  | k :: rest, seen =>
    if k ∈ seen then dedupKeysAux rest seen
    else k :: dedupKeysAux rest (k :: seen)

/-- Keep the first occurrence of each key, as Python dict insertion
does when the same keyword appears twice in the target list. -/
def dedupKeys (keys : List String) : List String := dedupKeysAux keys []

/-- The `for char in word` loop of `_count_syllables`: count characters
that are vowels whose predecessor (seeded by `prev`) was not a vowel. -/
def syllableLoop : List Char → Bool → Nat
  | [], _ => 0
  | c :: rest, prev =>
    (if isVowel c && !prev then 1 else 0) + syllableLoop rest (isVowel c)

/-- Embeds `SEOOptimizer._count_syllables`: lowercase, count non-vowel→vowel
transitions, subtract 1 for a trailing `e`, floor at 1. -/
def count_syllables (word : List Char) : Nat :=
  let w := word.map Char.toLower
  let count := syllableLoop w false
  let count := if w.getLast? = some 'e' then count - 1 else count
  max 1 count

/-- Embeds `SEOOptimizer._calculate_readability`. -/
def calculate_readability (text : List Char) : Readability :=
  let sentences := splitPunct text
  let words := splitWs text
  let syllables := (words.map count_syllables).sum
  let flesch_score : ℚ :=
    if sentences.length > 0 ∧ words.length > 0 then
      206835/1000 - (1015/1000) * ((words.length : ℚ) / (sentences.length : ℚ))
        - (846/10) * ((syllables : ℚ) / (words.length : ℚ))
    else 0
  { flesch_score := max 0 (min 100 flesch_score)
    sentence_count := sentences.length
    word_count := words.length
    syllable_count := syllables }

/-- Embeds `SEOOptimizer._analyze_headings`. -/
def analyze_headings (text : List Char) : HeadingStructure :=
  let lines := splitNl text []
  let h1_count := (lines.filter (fun l => ['#', ' '].isPrefixOf l)).length
  let h2_count := (lines.filter (fun l => ['#', '#', ' '].isPrefixOf l)).length
  let h3_count := (lines.filter (fun l => ['#', '#', '#', ' '].isPrefixOf l)).length
  { has_h1 := h1_count > 0
    h1_count := h1_count
    h2_count := h2_count
    h3_count := h3_count
    proper_hierarchy := h1_count ≤ 1 }

/-- Embeds `SEOOptimizer._calculate_avg_sentence_length`: split on sentence
punctuation, strip fragments and drop the empty ones, then average the
per-sentence word counts. -/
def calculate_avg_sentence_length (text : List Char) : ℚ :=
  let sentences := ((splitPunct text).map stripL).filter (· ≠ [])
  if sentences = [] then 0
  else ((sentences.map (fun s => (splitWs s).length)).sum : ℚ) / (sentences.length : ℚ)

/-- Loop body of the keyword-density loop of `analyze_seo`: one entry
of the mapping, for one target keyword. -/
def keyword_entry (lowered : List Char) (word_count : Nat)
    (keyword : String) : String × KeywordDensityEntry :=
  let keyword_lower := keyword.data.map Char.toLower
  let count := countSubstr lowered keyword_lower
  let density : ℚ := if word_count > 0 then ((count : ℚ) / (word_count : ℚ)) * 100 else 0
  (keyword, { count := count, density := round2 density })

/-- Embeds `SEOOptimizer.analyze_seo`. -/
def analyze_seo (text : String) (target_keywords : List String) : SeoAnalysis :=
  let t := text.data
  let lowered := t.map Char.toLower
  let words := splitWs lowered
  let word_count := words.length
  let keyword_density :=
    (dedupKeys target_keywords).map (keyword_entry lowered word_count)
  { word_count := word_count
    keyword_density := keyword_density
    heading_structure := analyze_headings t
    readability := calculate_readability t
    has_meta_description := t ≠ []
    average_sentence_length := calculate_avg_sentence_length t }

/-! ## Scorer (`SEOOptimizer._calculate_seo_score`)

The Python method accumulates `score` through a sequence of independent
`if` blocks and returns `min(score, max_score)`. Each block is modelled
as a component function; their sum mirrors the sequential accumulation. -/

/-- Word-count block: `>= min` then `<= max` gives 20, over the max
gives 10, under the min gives 5. -/
def wc_points (word_count min_word_count max_word_count : Nat) : Nat :=
  if word_count ≥ min_word_count then
    (if word_count ≤ max_word_count then 20 else 10)
  else 5

/-- Keyword-density block: 20 if some entry's density lies in
`[1.5, 3.0]`, else 10 if the mapping is non-empty, else 0. -/
def kd_points (kd : List (String × KeywordDensityEntry)) : Nat :=
  if kd.any (fun p => decide ((3 : ℚ)/2 ≤ p.2.density ∧ p.2.density ≤ 3)) then 20
  else if kd = [] then 0 else 10

/-- Heading block: +5 for `has_h1`, +5 for `h2_count >= 3`, +5 for
`proper_hierarchy`. -/
def heading_points (hs : HeadingStructure) : Nat :=
  (if hs.has_h1 then 5 else 0) + (if hs.h2_count ≥ 3 then 5 else 0)
    + (if hs.proper_hierarchy then 5 else 0)

/-- Readability block: 20 if `flesch_score >= 60`, else 10 if `>= 40`,
else 0. -/
def read_points (r : Readability) : Nat :=
  if r.flesch_score ≥ 60 then 20 else if r.flesch_score ≥ 40 then 10 else 0

/-- Meta-description block: 10 if present. -/
def meta_points (has_meta_description : Bool) : Nat :=
  if has_meta_description then 10 else 0

/-- Sentence-length block: 15 if the average is in `[15, 20]`, else 8
if in `[10, 25]`, else 0. -/
def sl_points (avg : ℚ) : Nat :=
  if 15 ≤ avg ∧ avg ≤ 20 then 15 else if 10 ≤ avg ∧ avg ≤ 25 then 8 else 0

/-- Embeds `SEOOptimizer._calculate_seo_score`: the component sum, capped at
`max_score = 100`. -/
def calculate_seo_score (a : SeoAnalysis)
    (min_word_count max_word_count : Nat) : Nat :=
  min (wc_points a.word_count min_word_count max_word_count
        + kd_points a.keyword_density
        + heading_points a.heading_structure
        + read_points a.readability
        + meta_points a.has_meta_description
        + sl_points a.average_sentence_length) 100

/-! ## Suggestion generator (`SEOOptimizer._generate_suggestions`)

The generated strings are modelled by an inductive type, one
constructor per distinct `suggestions.append(...)` site, carrying the
data interpolated into the f-string. -/

/-- One suggestion message; constructors correspond 1:1 to the appended
strings of `_generate_suggestions`. -/
inductive Suggestion where
  /-- Message "Increase word count to at least {min} words". -/
  | increaseWordCount (min_word_count : Nat)
  /-- Message "Consider reducing word count to under {max} words". -/
  | reduceWordCount (max_word_count : Nat)
  /-- Message "Increase usage of keyword '{kw}' (current: {density}%)". -/
  | increaseKeyword (keyword : String) (density : ℚ)
  /-- Message "Reduce keyword stuffing for '{kw}' (current: {density}%)". -/
  | reduceKeyword (keyword : String) (density : ℚ)
  /-- Message "Add a clear H1 heading". -/
  | addH1
  /-- Message "Add more H2 subheadings to improve structure". -/
  | addH2Subheadings
  /-- Message "Simplify language to improve readability". -/
  | simplifyLanguage
  /-- Message "Use shorter sentences for better readability". -/
  | useShorterSentences
  /-- Message "Vary sentence length for better flow". -/
  | varySentenceLength
deriving DecidableEq, Repr

/-- Embeds `SEOOptimizer._generate_suggestions`: sequential appends modelled
as list concatenation in the same order. -/
def generate_suggestions (a : SeoAnalysis)
    (min_word_count max_word_count : Nat) : List Suggestion :=
  (if a.word_count < min_word_count then [.increaseWordCount min_word_count]
   else if a.word_count > max_word_count then [.reduceWordCount max_word_count]
   else [])
  ++ a.keyword_density.flatMap (fun p =>
      if p.2.density < 1 then [.increaseKeyword p.1 p.2.density]
      else if p.2.density > 3 then [.reduceKeyword p.1 p.2.density]
      else [])
  ++ (if !a.heading_structure.has_h1 then [.addH1] else [])
  ++ (if a.heading_structure.h2_count < 3 then [.addH2Subheadings] else [])
  ++ (if a.readability.flesch_score < 40 then [.simplifyLanguage] else [])
  ++ (if a.average_sentence_length > 25 then [.useShorterSentences]
      else if a.average_sentence_length < 10 then [.varySentenceLength]
      else [])

/-! ## Spec-side definitions

These follow the spec's words rather than the code, for the refinement
claims that compare the two. -/

/-- Written from the spec's scoring table: "additive point budget,
independent components, each capped, summed, then capped at 100".
Word count: 20 if `min ≤ count ≤ max`, 10 if `count > max`, 5 if
`count < min`; keyword density: 20 if some keyword's density lies in
`[1.5, 3.0]`, else 10 if the mapping is non-empty, else 0; heading:
+5 if `hasH1`, +5 if `h2Count ≥ 3`, +5 if `properHierarchy`;
readability: 20 if `fleschScore ≥ 60`, 10 if `≥ 40`, else 0; meta
description: 10 if present; sentence length: 15 if in `[15, 20]`,
8 if in `[10, 25]` outside the tighter band, else 0. -/
def spec_seo_score (a : SeoAnalysis) (minWordCount maxWordCount : Nat) : Nat :=
  let wc : Nat :=
    if minWordCount ≤ a.word_count ∧ a.word_count ≤ maxWordCount then 20
    else if a.word_count > maxWordCount then 10
    else 5
  let kd : Nat :=
    if ∃ p ∈ a.keyword_density, (3 : ℚ)/2 ≤ p.2.density ∧ p.2.density ≤ 3 then 20
    else if a.keyword_density ≠ [] then 10
    else 0
  let hd : Nat :=
    (if a.heading_structure.has_h1 then 5 else 0)
    + (if a.heading_structure.h2_count ≥ 3 then 5 else 0)
    + (if a.heading_structure.proper_hierarchy then 5 else 0)
  let rd : Nat :=
    if a.readability.flesch_score ≥ 60 then 20
    else if a.readability.flesch_score ≥ 40 then 10
    else 0
  let mt : Nat := if a.has_meta_description then 10 else 0
  let sl : Nat :=
    if 15 ≤ a.average_sentence_length ∧ a.average_sentence_length ≤ 20 then 15
    else if 10 ≤ a.average_sentence_length ∧ a.average_sentence_length ≤ 25 then 8
    else 0
  min (wc + kd + hd + rd + mt + sl) 100

/-- Written from the spec's words for the syllable counter: the number
of positions whose character is a vowel and whose previous character
(none before the first) was not a vowel. -/
def vowelTransitions (l : List Char) : Nat :=
  (l.zip (false :: l.map isVowel)).countP (fun p => isVowel p.1 && !p.2)

/-! ## Concrete inputs used by individual claims -/

/-- End-to-end input text of the spec's test property: the sample
sentence repeated 50 times. -/
def c4_text : String :=
  String.join (List.replicate 50 "This is a test article about SEO optimization. ")

/-- An analysis scoring the full 100 points under the default word-count
configuration `min = 800`, `max = 2500`. -/
def full_score_analysis : SeoAnalysis :=
  { word_count := 2500
    keyword_density := [("keyword", { count := 50, density := 2 })]
    heading_structure :=
      { has_h1 := true, h1_count := 1, h2_count := 3, h3_count := 0
        proper_hierarchy := true }
    readability :=
      { flesch_score := 60, sentence_count := 125, word_count := 2500
        syllable_count := 2500 }
    has_meta_description := true
    average_sentence_length := 15 }

/-! ## Claims -/

/-- C2: for every `SeoAnalysis`, including pathological ones, and every
configured word-count bounds, the score returned by
`calculate_seo_score` lies in `[0, 100]`. -/
theorem c2_score_in_range (a : SeoAnalysis) (minWordCount maxWordCount : Nat) :
    0 ≤ calculate_seo_score a minWordCount maxWordCount
    ∧ calculate_seo_score a minWordCount maxWordCount ≤ 100 := by
  refine ⟨Nat.zero_le _, ?_⟩
  unfold calculate_seo_score
  exact Nat.min_le_right _ _

/-- C1: for a word-count configuration with `min ≤ max`,
`calculate_seo_score` computes exactly the additive point budget of the
spec's table, capped at 100 (`spec_seo_score`). -/
theorem c1_score_matches_spec_table (a : SeoAnalysis)
    (minWordCount maxWordCount : Nat) (h : minWordCount ≤ maxWordCount) :
    calculate_seo_score a minWordCount maxWordCount
      = spec_seo_score a minWordCount maxWordCount := by
  have hwc : wc_points a.word_count minWordCount maxWordCount =
      (if minWordCount ≤ a.word_count ∧ a.word_count ≤ maxWordCount then 20
       else if a.word_count > maxWordCount then 10 else 5) := by
    unfold wc_points
    split_ifs <;> omega
  have hkd : kd_points a.keyword_density =
      (if ∃ p ∈ a.keyword_density, (3 : ℚ)/2 ≤ p.2.density ∧ p.2.density ≤ 3
       then 20
       else if a.keyword_density ≠ [] then 10 else 0) := by
    unfold kd_points
    by_cases hex : ∃ p ∈ a.keyword_density, (3 : ℚ)/2 ≤ p.2.density ∧ p.2.density ≤ 3
    · rw [if_pos (by simpa [List.any_eq_true] using hex), if_pos hex]
    · rw [if_neg (by simpa [List.any_eq_true] using hex), if_neg hex]
      by_cases hnil : a.keyword_density = [] <;> simp [hnil]
  simp only [calculate_seo_score, spec_seo_score, heading_points, read_points,
    meta_points, sl_points]
  rw [hwc, hkd]

/-- Witness for C1 at the default configuration and a concrete
analysis. -/
theorem c1_score_matches_spec_table_witness :
    800 ≤ 2500
    ∧ calculate_seo_score full_score_analysis 800 2500
        = spec_seo_score full_score_analysis 800 2500 :=
  ⟨by decide, c1_score_matches_spec_table full_score_analysis 800 2500 (by decide)⟩

/-- C10: the analyzer sets `has_meta_description` exactly when the input
text is non-empty (it never inspects a real meta description), so the
scorer's 10-point meta-description component is granted for every
non-empty input text. -/
theorem c10_meta_description_iff_nonempty (text : String) (kws : List String) :
    ((analyze_seo text kws).has_meta_description = true ↔ text ≠ "")
    ∧ (text ≠ "" → meta_points (analyze_seo text kws).has_meta_description = 10) := by
  have hdata : text ≠ "" ↔ text.data ≠ [] := by
    rw [not_iff_not]
    constructor
    · intro h; rw [h]
    · intro h; exact String.ext h
  have h1 : (analyze_seo text kws).has_meta_description = decide (text.data ≠ []) := rfl
  constructor
  · rw [h1, decide_eq_true_iff]
    exact hdata.symm
  · intro hne
    have : (analyze_seo text kws).has_meta_description = true := by
      rw [h1, decide_eq_true_iff]
      exact hdata.mp hne
    simp [meta_points, this]

/-- Witness for C10 at a concrete non-empty text. -/
theorem c10_meta_description_iff_nonempty_witness :
    ("hello world" : String) ≠ ""
    ∧ meta_points (analyze_seo "hello world" ["seo"]).has_meta_description = 10 :=
  ⟨by decide, (c10_meta_description_iff_nonempty "hello world" ["seo"]).2 (by decide)⟩

/-- Auxiliary: the stateful vowel loop of the syllable counter counts
exactly the characters that are vowels paired with a non-vowel
predecessor flag (seeded with `prev`). -/
theorem syllableLoop_eq_countP (l : List Char) (prev : Bool) :
    syllableLoop l prev
      = (l.zip (prev :: l.map isVowel)).countP (fun p => isVowel p.1 && !p.2) := by
  induction l generalizing prev with
  | nil => rfl
  | cons c rest ih =>
    simp only [syllableLoop, List.map_cons, List.zip_cons_cons, List.countP_cons, ih]
    cases isVowel c <;> cases prev <;> (simp; try omega)

/-- C7: `count_syllables` is the number of non-vowel→vowel transitions
of the lowercased word (a position whose character is a vowel and whose
previous character was not), minus one when the word ends in `e`,
floored at one; the spec's reference values hold. -/
theorem c7_count_syllables_spec :
    (∀ w : List Char,
      count_syllables w
        = max 1 (vowelTransitions (w.map Char.toLower)
            - (if (w.map Char.toLower).getLast? = some 'e' then 1 else 0)))
    ∧ count_syllables "hello".data = 2
    ∧ count_syllables "a".data = 1
    ∧ count_syllables "optimization".data = 5 := by
  refine ⟨?_, by decide, by decide, by decide⟩
  intro w
  simp only [count_syllables, vowelTransitions, syllableLoop_eq_countP]
  split_ifs <;> omega

/-- C8: the Flesch score stored in the analysis is the spec formula
`206.835 − 1.015·(words/sentences) − 84.6·(syllables/words)` over the
raw punctuation-split sentence count and the whitespace word count,
computed when both counts are positive and 0 otherwise, and the stored
value is clamped to `[0, 100]` for every input text. -/
theorem c8_flesch_formula_and_clamp (text : String) (kws : List String) :
    ((analyze_seo text kws).readability.flesch_score
      = max 0 (min 100
          (if (splitPunct text.data).length > 0 ∧ (splitWs text.data).length > 0 then
            206835/1000
              - (1015/1000) * (((splitWs text.data).length : ℚ)
                  / ((splitPunct text.data).length : ℚ))
              - (846/10) * ((((splitWs text.data).map count_syllables).sum : ℚ)
                  / ((splitWs text.data).length : ℚ))
          else 0)))
    ∧ 0 ≤ (analyze_seo text kws).readability.flesch_score
    ∧ (analyze_seo text kws).readability.flesch_score ≤ 100 := by
  have h : (analyze_seo text kws).readability.flesch_score
      = max 0 (min 100
          (if (splitPunct text.data).length > 0 ∧ (splitWs text.data).length > 0 then
            206835/1000
              - (1015/1000) * (((splitWs text.data).length : ℚ)
                  / ((splitPunct text.data).length : ℚ))
              - (846/10) * ((((splitWs text.data).map count_syllables).sum : ℚ)
                  / ((splitWs text.data).length : ℚ))
          else 0)) := rfl
  refine ⟨h, ?_, ?_⟩
  · rw [h]; exact le_max_left _ _
  · rw [h]; exact max_le (by norm_num) (min_le_left _ _)

/-- C6: every entry of the density mapping stores the number of
non-overlapping occurrences of the lowercased keyword as a substring of
the lowercased text (`countSubstr`, not word-boundary matching), and a
density of `count / wordCount * 100` rounded to two decimals, 0 when
the word count is 0; the keyword `"cat"` against `"the cat catalog"`
counts 2 occurrences, not 1. -/
theorem c6_keyword_density_substring (text : String) (kws : List String)
    (p : String × KeywordDensityEntry)
    (hp : p ∈ (analyze_seo text kws).keyword_density) :
    (p.2.count = countSubstr (text.data.map Char.toLower) (p.1.data.map Char.toLower)
      ∧ p.2.density
          = (if 0 < (analyze_seo text kws).word_count then
              round2 ((p.2.count : ℚ) / ((analyze_seo text kws).word_count : ℚ) * 100)
            else 0))
    ∧ ((analyze_seo "the cat catalog" ["cat"]).keyword_density.map
          (fun q => (q.1, q.2.count)) = [("cat", 2)]) := by
  refine ⟨?_, by decide⟩
  simp only [analyze_seo, List.mem_map] at hp
  obtain ⟨kw, hkw, rfl⟩ := hp
  refine ⟨rfl, ?_⟩
  show round2 (if (splitWs (text.data.map Char.toLower)).length > 0 then
      ((countSubstr (text.data.map Char.toLower) (kw.data.map Char.toLower) : ℚ)
        / ((splitWs (text.data.map Char.toLower)).length : ℚ)) * 100
    else 0) = _
  by_cases hwc : (splitWs (text.data.map Char.toLower)).length > 0
  · rw [if_pos hwc, if_pos (show 0 < (analyze_seo text kws).word_count from hwc)]
    rfl
  · rw [if_neg hwc, if_neg (show ¬0 < (analyze_seo text kws).word_count from hwc)]
    simp [round2]

/-- Witness for C6 at the spec's substring example: the entry for
`"cat"` is in the mapping, satisfies the substring-count equation of
the main theorem, and stores count 2. -/
theorem c6_keyword_density_substring_witness :
    ∃ p ∈ (analyze_seo "the cat catalog" ["cat"]).keyword_density,
      p.2.count = countSubstr ("the cat catalog".data.map Char.toLower)
          (p.1.data.map Char.toLower)
      ∧ p.2.count = 2 := by
  have hcat : "cat" ∈ dedupKeys ["cat"] := by decide
  have hmem := List.mem_map_of_mem
    (keyword_entry ("the cat catalog".data.map Char.toLower)
      (splitWs ("the cat catalog".data.map Char.toLower)).length)
    hcat
  refine ⟨_, hmem, (c6_keyword_density_substring "the cat catalog" ["cat"] _ hmem).1.1, ?_⟩
  decide

/-- Counterexample for C5: on the empty text, the readability metrics
are not all zeroed — the raw punctuation split of `""` is one empty
fragment, so `sentence_count` is 1, not 0. -/
theorem c5_counterexample :
    ¬((analyze_seo "" []).readability.sentence_count = 0) := by
  decide

/-- C5 (amended): `analyze_seo` never fails. On the empty text it
returns word count 0, density 0 for every keyword, zero heading
counts, Flesch score 0, readability word and syllable counts 0,
`sentence_count = 1` (the raw punctuation split of `""` is one empty
fragment), and average sentence length 0; in general, for every text
whose whitespace split is empty, the word count is 0 and every
keyword's density is 0, with no division-by-zero fault. -/
theorem c5_zero_word_analysis :
    (∀ kws : List String,
      (analyze_seo "" kws).word_count = 0
      ∧ (∀ p ∈ (analyze_seo "" kws).keyword_density, p.2.density = 0)
      ∧ (analyze_seo "" kws).heading_structure.h1_count = 0
      ∧ (analyze_seo "" kws).heading_structure.h2_count = 0
      ∧ (analyze_seo "" kws).heading_structure.h3_count = 0
      ∧ (analyze_seo "" kws).readability.flesch_score = 0
      ∧ (analyze_seo "" kws).readability.word_count = 0
      ∧ (analyze_seo "" kws).readability.syllable_count = 0
      ∧ (analyze_seo "" kws).readability.sentence_count = 1
      ∧ (analyze_seo "" kws).average_sentence_length = 0)
    ∧ (∀ (text : String) (kws : List String),
        splitWs (text.data.map Char.toLower) = [] →
          (analyze_seo text kws).word_count = 0
          ∧ ∀ p ∈ (analyze_seo text kws).keyword_density, p.2.density = 0) := by
  have hdens : ∀ (text : String) (kws : List String),
      (splitWs (text.data.map Char.toLower)).length = 0 →
      ∀ p ∈ (analyze_seo text kws).keyword_density, p.2.density = 0 := by
    intro text kws hlen p hp
    simp only [analyze_seo, List.mem_map] at hp
    obtain ⟨kw, hkw, rfl⟩ := hp
    show round2 (if (splitWs (text.data.map Char.toLower)).length > 0 then
        ((countSubstr (text.data.map Char.toLower) (kw.data.map Char.toLower) : ℚ)
          / ((splitWs (text.data.map Char.toLower)).length : ℚ)) * 100
      else 0) = 0
    rw [if_neg (by omega)]
    simp [round2]
  constructor
  · intro kws
    refine ⟨?_, hdens "" kws (by decide), ?_, ?_, ?_, ?_, ?_, ?_, ?_, ?_⟩
    · show (splitWs (("" : String).data.map Char.toLower)).length = 0
      decide
    · show (analyze_headings ("" : String).data).h1_count = 0
      decide
    · show (analyze_headings ("" : String).data).h2_count = 0
      decide
    · show (analyze_headings ("" : String).data).h3_count = 0
      decide
    · show max 0 (min 100 (if (splitPunct ("" : String).data).length > 0
          ∧ (splitWs ("" : String).data).length > 0 then
            206835/1000
              - (1015/1000) * (((splitWs ("" : String).data).length : ℚ)
                  / ((splitPunct ("" : String).data).length : ℚ))
              - (846/10) * (((((splitWs ("" : String).data).map count_syllables).sum : Nat) : ℚ)
                  / ((splitWs ("" : String).data).length : ℚ))
          else 0)) = 0
      rw [if_neg (by decide)]
      norm_num
    · show (calculate_readability ("" : String).data).word_count = 0
      decide
    · show (calculate_readability ("" : String).data).syllable_count = 0
      decide
    · show (calculate_readability ("" : String).data).sentence_count = 1
      decide
    · show (if ((splitPunct ("" : String).data).map stripL).filter (· ≠ []) = []
          then (0 : ℚ)
          else (((((splitPunct ("" : String).data).map stripL).filter (· ≠ [])).map
              (fun s => (splitWs s).length)).sum : ℚ)
            / (((((splitPunct ("" : String).data).map stripL).filter (· ≠ [])).length : Nat) : ℚ)) = 0
      rw [if_pos (by decide)]
  · intro text kws h
    have hlen : (splitWs (text.data.map Char.toLower)).length = 0 := by
      rw [h]; rfl
    exact ⟨hlen, hdens text kws hlen⟩

/-- Witness for C5 at a whitespace-only text. -/
theorem c5_zero_word_analysis_witness :
    splitWs ((" " : String).data.map Char.toLower) = []
    ∧ (analyze_seo " " ["x"]).word_count = 0
    ∧ ∃ p ∈ (analyze_seo " " ["x"]).keyword_density, p.2.density = 0 := by
  have h : splitWs ((" " : String).data.map Char.toLower) = [] := by decide
  have hx : "x" ∈ dedupKeys ["x"] := by decide
  have hmem := List.mem_map_of_mem
    (keyword_entry (" ".data.map Char.toLower)
      (splitWs (" ".data.map Char.toLower)).length)
    hx
  exact ⟨h, (c5_zero_word_analysis.2 " " ["x"] h).1,
    ⟨_, hmem, (c5_zero_word_analysis.2 " " ["x"] h).2 _ hmem⟩⟩

/-- Counterexample for C3: the score is not monotone in `word_count`.
With the default bounds, increasing `word_count` from 2500 (at the
upper bound, worth 20 points) to 2501 (over it, worth 10) drops the
score from 100 to 90. -/
theorem c3_counterexample :
    ¬(calculate_seo_score full_score_analysis 800 2500
        ≤ calculate_seo_score
            { full_score_analysis with word_count := 2501 } 800 2500) := by
  have h1 : calculate_seo_score full_score_analysis 800 2500 = 100 := by
    norm_num [calculate_seo_score, full_score_analysis, wc_points, kd_points,
      heading_points, read_points, meta_points, sl_points]
  have h2 : calculate_seo_score { full_score_analysis with word_count := 2501 }
      800 2500 = 90 := by
    norm_num [calculate_seo_score, full_score_analysis, wc_points, kd_points,
      heading_points, read_points, meta_points, sl_points]
  omega

/-- C3 (amended): `calculate_seo_score` is monotone in `h2_count` and in
`flesch_score` holding all other fields fixed; it is not monotone in
`word_count` (nor in `average_sentence_length`), as the counterexample
shows. -/
theorem c3_monotone_h2_flesch (a : SeoAnalysis) (mn mx : Nat) :
    (∀ k k' : Nat, k ≤ k' →
      calculate_seo_score
          { a with heading_structure :=
              { a.heading_structure with h2_count := k } } mn mx
        ≤ calculate_seo_score
            { a with heading_structure :=
                { a.heading_structure with h2_count := k' } } mn mx)
    ∧ (∀ q q' : ℚ, q ≤ q' →
      calculate_seo_score
          { a with readability := { a.readability with flesch_score := q } } mn mx
        ≤ calculate_seo_score
            { a with readability := { a.readability with flesch_score := q' } } mn mx) := by
  constructor
  · intro k k' hk
    unfold calculate_seo_score
    refine min_le_min ?_ (le_refl 100)
    dsimp only
    have hh : heading_points
          { has_h1 := a.heading_structure.has_h1
            h1_count := a.heading_structure.h1_count
            h2_count := k
            h3_count := a.heading_structure.h3_count
            proper_hierarchy := a.heading_structure.proper_hierarchy }
        ≤ heading_points
          { has_h1 := a.heading_structure.has_h1
            h1_count := a.heading_structure.h1_count
            h2_count := k'
            h3_count := a.heading_structure.h3_count
            proper_hierarchy := a.heading_structure.proper_hierarchy } := by
      simp only [heading_points]
      split_ifs <;> omega
    omega
  · intro q q' hq
    unfold calculate_seo_score
    refine min_le_min ?_ (le_refl 100)
    dsimp only
    have hr : read_points
          { flesch_score := q
            sentence_count := a.readability.sentence_count
            word_count := a.readability.word_count
            syllable_count := a.readability.syllable_count }
        ≤ read_points
          { flesch_score := q'
            sentence_count := a.readability.sentence_count
            word_count := a.readability.word_count
            syllable_count := a.readability.syllable_count } := by
      simp only [read_points]
      split_ifs <;> first | omega | linarith
    omega

/-- Witness for C3's amended statement at concrete inputs. -/
theorem c3_monotone_h2_flesch_witness :
    (2 ≤ 3
      ∧ calculate_seo_score
          { full_score_analysis with heading_structure :=
              { full_score_analysis.heading_structure with h2_count := 2 } } 800 2500
        ≤ calculate_seo_score
            { full_score_analysis with heading_structure :=
                { full_score_analysis.heading_structure with h2_count := 3 } } 800 2500)
    ∧ ((50 : ℚ) ≤ 60
      ∧ calculate_seo_score
          { full_score_analysis with readability :=
              { full_score_analysis.readability with flesch_score := 50 } } 800 2500
        ≤ calculate_seo_score
            { full_score_analysis with readability :=
                { full_score_analysis.readability with flesch_score := 60 } } 800 2500) :=
  ⟨⟨by norm_num,
    (c3_monotone_h2_flesch full_score_analysis 800 2500).1 2 3 (by norm_num)⟩,
   ⟨by norm_num,
    (c3_monotone_h2_flesch full_score_analysis 800 2500).2 50 60 (by norm_num)⟩⟩


/-- Membership in a one-branch conditional block of the suggestion
list. -/
theorem mem_ite_nil_iff {α : Type} (x : α) (c : Prop) [Decidable c]
    (l : List α) : x ∈ (if c then l else []) ↔ c ∧ x ∈ l := by
  split_ifs with h <;> simp [*]

/-- Membership in a two-branch conditional block of the suggestion
list. -/
theorem mem_ite_ite_nil_iff {α : Type} (x : α) (c d : Prop) [Decidable c]
    [Decidable d] (l m : List α) :
    x ∈ (if c then l else if d then m else [])
      ↔ (c ∧ x ∈ l) ∨ (¬c ∧ d ∧ x ∈ m) := by
  split_ifs with h h2 <;> simp [*]

/-- C9: the suggestion list contains no message whose signal is already
in its ideal range (no word-count message when `min ≤ wc ≤ max`, no
density message for a keyword whose density lies in `[1.0, 3.0]`, no H1
message when `has_h1`, no H2 message when `h2_count ≥ 3`, no
readability message when `flesch_score ≥ 40`, no sentence-length
message when the average lies in `[10, 25]`), and the list is exactly
the fixed-order concatenation: word count, per-keyword density in
mapping iteration order, missing H1, fewer than three H2s, low
readability, sentence length with the long check taking precedence. -/
theorem c9_suggestions_in_range (a : SeoAnalysis) (mn mx : Nat) :
    ((mn ≤ a.word_count → a.word_count ≤ mx →
        Suggestion.increaseWordCount mn ∉ generate_suggestions a mn mx
        ∧ Suggestion.reduceWordCount mx ∉ generate_suggestions a mn mx)
    ∧ (∀ p ∈ a.keyword_density, 1 ≤ p.2.density → p.2.density ≤ 3 →
        Suggestion.increaseKeyword p.1 p.2.density ∉ generate_suggestions a mn mx
        ∧ Suggestion.reduceKeyword p.1 p.2.density ∉ generate_suggestions a mn mx)
    ∧ (a.heading_structure.has_h1 = true →
        Suggestion.addH1 ∉ generate_suggestions a mn mx)
    ∧ (3 ≤ a.heading_structure.h2_count →
        Suggestion.addH2Subheadings ∉ generate_suggestions a mn mx)
    ∧ ((40 : ℚ) ≤ a.readability.flesch_score →
        Suggestion.simplifyLanguage ∉ generate_suggestions a mn mx)
    ∧ (10 ≤ a.average_sentence_length → a.average_sentence_length ≤ 25 →
        Suggestion.useShorterSentences ∉ generate_suggestions a mn mx
        ∧ Suggestion.varySentenceLength ∉ generate_suggestions a mn mx))
    ∧ generate_suggestions a mn mx =
        (if a.word_count < mn then [Suggestion.increaseWordCount mn]
         else if mx < a.word_count then [Suggestion.reduceWordCount mx] else [])
        ++ a.keyword_density.flatMap (fun p =>
            if p.2.density < 1 then [Suggestion.increaseKeyword p.1 p.2.density]
            else if 3 < p.2.density then [Suggestion.reduceKeyword p.1 p.2.density]
            else [])
        ++ (if a.heading_structure.has_h1 then [] else [Suggestion.addH1])
        ++ (if a.heading_structure.h2_count < 3 then [Suggestion.addH2Subheadings]
            else [])
        ++ (if a.readability.flesch_score < 40 then [Suggestion.simplifyLanguage]
            else [])
        ++ (if 25 < a.average_sentence_length then [Suggestion.useShorterSentences]
            else if a.average_sentence_length < 10 then
              [Suggestion.varySentenceLength]
            else []) := by
  refine ⟨⟨?_, ?_, ?_, ?_, ?_, ?_⟩, ?_⟩
  · intro h1 h2
    constructor <;>
      (intro hx
       simp only [generate_suggestions, List.mem_append, mem_ite_nil_iff,
         mem_ite_ite_nil_iff, List.mem_flatMap, List.mem_singleton] at hx
       rcases hx with
         ((((((⟨hc, heq⟩ | ⟨hc1, hc2, heq⟩) | ⟨p', hp', (⟨hc, heq⟩ | ⟨hc1, hc2, heq⟩)⟩)
           | ⟨hc, heq⟩) | ⟨hc, heq⟩) | ⟨hc, heq⟩) | (⟨hc, heq⟩ | ⟨hc1, hc2, heq⟩)) <;>
         first
         | exact Suggestion.noConfusion heq
         | omega)
  · intro p hp hd1 hd3
    constructor <;>
      (intro hx
       simp only [generate_suggestions, List.mem_append, mem_ite_nil_iff,
         mem_ite_ite_nil_iff, List.mem_flatMap, List.mem_singleton] at hx
       rcases hx with
         ((((((⟨hc, heq⟩ | ⟨hc1, hc2, heq⟩) | ⟨p', hp', (⟨hc, heq⟩ | ⟨hc1, hc2, heq⟩)⟩)
           | ⟨hc, heq⟩) | ⟨hc, heq⟩) | ⟨hc, heq⟩) | (⟨hc, heq⟩ | ⟨hc1, hc2, heq⟩)) <;>
         first
         | exact Suggestion.noConfusion heq
         | (rw [Suggestion.increaseKeyword.injEq] at heq
            rw [heq.2] at hd1
            linarith)
         | (rw [Suggestion.reduceKeyword.injEq] at heq
            rw [heq.2] at hd3
            linarith))
  · intro hh1 hx
    simp only [generate_suggestions, List.mem_append, mem_ite_nil_iff,
      mem_ite_ite_nil_iff, List.mem_flatMap, List.mem_singleton] at hx
    rcases hx with
      ((((((⟨hc, heq⟩ | ⟨hc1, hc2, heq⟩) | ⟨p', hp', (⟨hc, heq⟩ | ⟨hc1, hc2, heq⟩)⟩)
        | ⟨hc, heq⟩) | ⟨hc, heq⟩) | ⟨hc, heq⟩) | (⟨hc, heq⟩ | ⟨hc1, hc2, heq⟩)) <;>
      first
      | exact Suggestion.noConfusion heq
      | simp [hh1] at hc
  · intro hh2 hx
    simp only [generate_suggestions, List.mem_append, mem_ite_nil_iff,
      mem_ite_ite_nil_iff, List.mem_flatMap, List.mem_singleton] at hx
    rcases hx with
      ((((((⟨hc, heq⟩ | ⟨hc1, hc2, heq⟩) | ⟨p', hp', (⟨hc, heq⟩ | ⟨hc1, hc2, heq⟩)⟩)
        | ⟨hc, heq⟩) | ⟨hc, heq⟩) | ⟨hc, heq⟩) | (⟨hc, heq⟩ | ⟨hc1, hc2, heq⟩)) <;>
      first
      | exact Suggestion.noConfusion heq
      | omega
  · intro hfl hx
    simp only [generate_suggestions, List.mem_append, mem_ite_nil_iff,
      mem_ite_ite_nil_iff, List.mem_flatMap, List.mem_singleton] at hx
    rcases hx with
      ((((((⟨hc, heq⟩ | ⟨hc1, hc2, heq⟩) | ⟨p', hp', (⟨hc, heq⟩ | ⟨hc1, hc2, heq⟩)⟩)
        | ⟨hc, heq⟩) | ⟨hc, heq⟩) | ⟨hc, heq⟩) | (⟨hc, heq⟩ | ⟨hc1, hc2, heq⟩)) <;>
      first
      | exact Suggestion.noConfusion heq
      | linarith
  · intro hsl1 hsl2
    constructor <;>
      (intro hx
       simp only [generate_suggestions, List.mem_append, mem_ite_nil_iff,
         mem_ite_ite_nil_iff, List.mem_flatMap, List.mem_singleton] at hx
       rcases hx with
         ((((((⟨hc, heq⟩ | ⟨hc1, hc2, heq⟩) | ⟨p', hp', (⟨hc, heq⟩ | ⟨hc1, hc2, heq⟩)⟩)
           | ⟨hc, heq⟩) | ⟨hc, heq⟩) | ⟨hc, heq⟩) | (⟨hc, heq⟩ | ⟨hc1, hc2, heq⟩)) <;>
         first
         | exact Suggestion.noConfusion heq
         | linarith)
  · unfold generate_suggestions
    cases hh1 : a.heading_structure.has_h1 <;> simp [hh1, gt_iff_lt]

/-- Witness for C9 at an analysis whose signals are all inside their
ideal ranges: none of the corresponding suggestions appear. -/
theorem c9_suggestions_in_range_witness :
    Suggestion.increaseWordCount 800 ∉ generate_suggestions full_score_analysis 800 2500
    ∧ Suggestion.addH1 ∉ generate_suggestions full_score_analysis 800 2500
    ∧ Suggestion.addH2Subheadings ∉ generate_suggestions full_score_analysis 800 2500
    ∧ Suggestion.simplifyLanguage ∉ generate_suggestions full_score_analysis 800 2500
    ∧ Suggestion.useShorterSentences ∉ generate_suggestions full_score_analysis 800 2500
    ∧ ∃ p ∈ full_score_analysis.keyword_density,
        Suggestion.increaseKeyword p.1 p.2.density
          ∉ generate_suggestions full_score_analysis 800 2500 := by
  have hmem : ("keyword", { count := 50, density := 2 : KeywordDensityEntry })
      ∈ full_score_analysis.keyword_density := List.mem_singleton_self _
  exact ⟨((c9_suggestions_in_range full_score_analysis 800 2500).1.1
      (by norm_num [full_score_analysis]) (by norm_num [full_score_analysis])).1,
    (c9_suggestions_in_range full_score_analysis 800 2500).1.2.2.1 rfl,
    (c9_suggestions_in_range full_score_analysis 800 2500).1.2.2.2.1 (by norm_num [full_score_analysis]),
    (c9_suggestions_in_range full_score_analysis 800 2500).1.2.2.2.2.1 (by norm_num [full_score_analysis]),
    ((c9_suggestions_in_range full_score_analysis 800 2500).1.2.2.2.2.2
      (by norm_num [full_score_analysis]) (by norm_num [full_score_analysis])).1,
    ⟨_, hmem, ((c9_suggestions_in_range full_score_analysis 800 2500).1.2.1
      _ hmem (by norm_num [full_score_analysis]) (by norm_num [full_score_analysis])).1⟩⟩

set_option maxRecDepth 1000000 in
/-- Counterexample for C4: the sample sentence has 8 whitespace tokens,
not 9, so the analyzed word count of the 50-fold repetition is 400,
not 450. -/
theorem c4_counterexample :
    (analyze_seo c4_text ["test", "SEO", "optimization"]).word_count ≠ 450 := by
  decide

set_option maxRecDepth 1000000 in
/-- C4 (amended): on the repeated sample sentence with keywords
`["test", "SEO", "optimization"]`, the analysis has word count 400
(8 words × 50), each keyword occurs 50 times, the `"SEO"` entry has
density `50 / 400 × 100 = 12.5`, and the suggestion generator emits a
keyword-stuffing (reduce-usage) message for `"SEO"` because 12.5
exceeds 3.0. -/
theorem c4_end_to_end :
    (analyze_seo c4_text ["test", "SEO", "optimization"]).word_count = 400
    ∧ ((analyze_seo c4_text ["test", "SEO", "optimization"]).keyword_density.map
        (fun q => (q.1, q.2.count)))
        = [("test", 50), ("SEO", 50), ("optimization", 50)]
    ∧ ∃ p ∈ (analyze_seo c4_text ["test", "SEO", "optimization"]).keyword_density,
        p.1 = "SEO" ∧ p.2.count = 50 ∧ p.2.density = 25/2
        ∧ Suggestion.reduceKeyword p.1 p.2.density
            ∈ generate_suggestions
                (analyze_seo c4_text ["test", "SEO", "optimization"]) 800 2500 := by
  have hC : countSubstr (c4_text.data.map Char.toLower)
      ("SEO".data.map Char.toLower) = 50 := by decide
  have hW : (splitWs (c4_text.data.map Char.toLower)).length = 400 := by decide
  have hseo : "SEO" ∈ dedupKeys ["test", "SEO", "optimization"] := by decide
  have hmem := List.mem_map_of_mem
    (keyword_entry (c4_text.data.map Char.toLower)
      (splitWs (c4_text.data.map Char.toLower)).length)
    hseo
  have hdens : (keyword_entry (c4_text.data.map Char.toLower)
      (splitWs (c4_text.data.map Char.toLower)).length "SEO").2.density = 25/2 := by
    show round2 (if (splitWs (c4_text.data.map Char.toLower)).length > 0 then
        ((countSubstr (c4_text.data.map Char.toLower) ("SEO".data.map Char.toLower) : ℚ)
          / ((splitWs (c4_text.data.map Char.toLower)).length : ℚ)) * 100
      else 0) = 25/2
    rw [hC, hW]
    rw [if_pos (by norm_num)]
    norm_num [round2, round_eq]
  refine ⟨by decide, by decide, ?_⟩
  refine ⟨_, hmem, rfl, by exact hC, hdens, ?_⟩
  simp only [generate_suggestions]
  refine List.mem_append_left _ (List.mem_append_left _ (List.mem_append_left _
    (List.mem_append_left _ (List.mem_append_right _ ?_))))
  refine List.mem_flatMap.mpr ⟨_, hmem, ?_⟩
  refine (mem_ite_ite_nil_iff _ _ _ _ _).mpr (Or.inr ⟨?_, ?_, ?_⟩)
  · rw [hdens]
    norm_num
  · rw [hdens]
    norm_num
  · exact List.mem_singleton_self _
